import Mathlib

/-!
Shallow embedding of `src/s1reader/s1_geo2rdr.py` (and the stripmap burst
loading contract exercised by `tests/test_stripmap.py`) from the
scottstanie/s1-reader repository.

Real quantities (longitudes, latitudes, heights, times, ranges) are modelled
as exact rationals.  The external collaborators (gdal raster access, the
s1reader burst loader and orbit resolution, shapely polygon containment, the
isce3 geo2rdr solver) are modelled as an oracle environment `Env`; the CLI
`main` is a pure function of the environment and the parsed arguments,
returning the trace of observable events (prints and external I/O calls)
together with an optional uncaught error.
-/

/-- Python `int()` applied to an exact real value: truncation toward zero. -/
def pyTrunc (q : ℚ) : ℤ :=
  if 0 ≤ q then ⌊q⌋ else ⌈q⌉

/-- Python `round()` applied to an exact real value: round-half-to-even. -/
def pyRound (q : ℚ) : ℤ :=
  let f := ⌊q⌋
  if q - f < 1/2 then f
  else if 1/2 < q - f then f + 1
  else if f % 2 = 0 then f else f + 1

/-- A gdal raster dataset: the six geotransform coefficients
(`ds.GetGeoTransform()`) and band 1 as a pixel-indexed function
(`band.ReadAsArray(px, py, 1, 1).item()`). -/
structure Raster where
  gt0 : ℚ
  gt1 : ℚ
  gt2 : ℚ
  gt3 : ℚ
  gt4 : ℚ
  gt5 : ℚ
  band1 : ℤ → ℤ → ℚ

/-- `_get_height_from_dem(lon, lat, dem_file)` from `s1_geo2rdr.py`, with the
opened dataset passed explicitly:
`px = int((lon - gt[0]) / gt[1])`, `py = int((lat - gt[3]) / gt[5])`,
then read the 1x1 pixel at `(px, py)` from band 1. -/
def get_height_from_dem (lon lat : ℚ) (ds : Raster) : ℚ :=
  let px := pyTrunc ((lon - ds.gt0) / ds.gt1)
  let py := pyTrunc ((lat - ds.gt3) / ds.gt5)
  ds.band1 px py

/-- The radar-grid parameters consumed from `burst.as_isce3_radargrid()`. -/
structure RadarGrid where
  sensing_start : ℚ
  az_time_interval : ℚ
  starting_range : ℚ
  range_pixel_spacing : ℚ

/-- The attributes of a burst object consumed by `s1_geo2rdr.py` and by the
stripmap tests.  `burst_id` is `none` when the Python attribute is `None`. -/
structure Burst where
  burst_id : Option String
  iw : ℕ
  tiff_path : String
  radar_grid : RadarGrid
  polarization : String
  platform_id : String
  shape : ℕ × ℕ

/-- Observable events of a CLI run: lines printed to stdout and calls into
external I/O collaborators, in program order. -/
inductive Event where
  | openRaster (path : String)
  | resolveOrbit (dir : String)
  | loadBursts (iw : ℕ)
  | printHeader
  | printRow (s : String)
  deriving DecidableEq, Repr

/-- Oracle for the external collaborators of `s1_geo2rdr.py`. -/
structure Env where
  /-- `gdal.Open` -/
  openRaster : String → Raster
  /-- `s1reader.get_orbit_file_from_dir` -/
  getOrbitFile : String → String → String
  /-- `s1reader.load_bursts(s1_file, orb_file, iw, pol, flag_apply_eap=False)`;
  may raise, modelled as `Except`. -/
  loadBursts : String → Option String → ℕ → String → Except String (List Burst)
  /-- `MultiPolygon(burst.border).contains(Point(lon, lat))` -/
  contains : Burst → ℚ → ℚ → Bool
  /-- `s1geo2rdr(lon, lat, h, burst)`, i.e. `isce3.geometry.geo2rdr` with zero
  Doppler and right look side: returns `(azimuth_time, slant_range)`. -/
  geo2rdr : ℚ → ℚ → ℚ → Burst → ℚ × ℚ

/-- The parsed CLI arguments of `get_cli_parser()`. -/
structure Args where
  lon : ℚ
  lat : ℚ
  s1_file : String
  orbit_dir : Option String := none
  dem : Option String := none
  height : Option ℚ := none
  pol : String := "vv"
  iw : Option ℕ := none
  burst_id : Option String := none
  outfile : Option String := none
  buffer : ℤ := 100

/-- The orbit file used by `_get_overlapping_bursts`: resolved from the
directory when one is given, else `None`. -/
def orbitFileOf (env : Env) (s1_file : String) (orbit_dir : Option String) :
    Option String :=
  match orbit_dir with
  | some d => some (env.getOrbitFile s1_file d)
  | none => none

/-- `_get_overlapping_bursts` from `s1_geo2rdr.py`: for sub-swaths 1, 2, 3
(`range(1, 4)`) load the bursts and keep those whose border multi-polygon
contains the query point.  Returns the emitted I/O events and either the
concatenated kept bursts or the first loader error. -/
def get_overlapping_bursts (env : Env) (s1_file : String) (lon lat : ℚ)
    (orbit_dir : Option String) (pol : String) :
    List Event × Except String (List Burst) :=
  let orbEvts : List Event :=
    match orbit_dir with
    | some d => [Event.resolveOrbit d]
    | none => []
  let orb_file := orbitFileOf env s1_file orbit_dir
  let keep : Burst → Bool := fun b => env.contains b lon lat
  match env.loadBursts s1_file orb_file 1 pol with
  | Except.error e => (orbEvts ++ [Event.loadBursts 1], Except.error e)
  | Except.ok l1 =>
    match env.loadBursts s1_file orb_file 2 pol with
    | Except.error e =>
        (orbEvts ++ [Event.loadBursts 1, Event.loadBursts 2], Except.error e)
    | Except.ok l2 =>
      match env.loadBursts s1_file orb_file 3 pol with
      | Except.error e =>
          (orbEvts ++ [Event.loadBursts 1, Event.loadBursts 2, Event.loadBursts 3],
           Except.error e)
      | Except.ok l3 =>
          (orbEvts ++ [Event.loadBursts 1, Event.loadBursts 2, Event.loadBursts 3],
           Except.ok (l1.filter keep ++ l2.filter keep ++ l3.filter keep))

/-- The burst-level filter of `main`: a burst is kept unless
`args.burst_id is not None and args.burst_id != burst.burst_id` or
`args.iw is not None and args.iw != burst.iw` (Python `!=` compares the
given string against a possibly-`None` burst id by value). -/
def keep_burst (args : Args) (burst : Burst) : Bool :=
  (match args.burst_id with
   | none => true
   | some b => burst.burst_id == some b) &&
  (match args.iw with
   | none => true
   | some i => burst.iw == i)

/-- The CSV data row
`f"{lon},{lat},{az_idx},{range_idx},{burst.burst_id},{burst.tiff_path}"`
(Python renders a `None` burst id as the string `None`). -/
def formatRow (lon lat : ℚ) (az_idx range_idx : ℤ) (burst_id : Option String)
    (tiff_path : String) : String :=
  toString lon ++ "," ++ toString lat ++ "," ++ toString az_idx ++ "," ++
    toString range_idx ++ "," ++
    (match burst_id with
     | none => "None"
     | some s => s) ++ "," ++ tiff_path

/-- The pixel window computed in the `--outfile` branch:
`rows = slice(az_idx - buf, az_idx + buf + 1)`,
`cols = slice(range_idx - buf, range_idx + buf + 1)`. -/
def window (az_idx range_idx buf : ℤ) : (ℤ × ℤ) × (ℤ × ℤ) :=
  ((az_idx - buf, az_idx + buf + 1), (range_idx - buf, range_idx + buf + 1))

/-- The body of `main`'s per-burst loop: apply the two filters, call the
geo2rdr solver, round to pixel indices, print the CSV row; the `--outfile`
branch computes a window and discards it. -/
def process_burst (env : Env) (args : Args) (h : ℚ) (burst : Burst) :
    List Event :=
  if keep_burst args burst then
    let rg := burst.radar_grid
    let res := env.geo2rdr args.lon args.lat h burst
    let az_idx := pyRound ((res.1 - rg.sensing_start) / rg.az_time_interval)
    let range_idx := pyRound ((res.2 - rg.starting_range) / rg.range_pixel_spacing)
    let _win :=
      match args.outfile with
      | some _ => some (window az_idx range_idx args.buffer)
      | none => none
    [Event.printRow (formatRow args.lon args.lat az_idx range_idx
        burst.burst_id burst.tiff_path)]
  else []

/-- `main` after the height has been resolved to `h`: print the CSV header,
find the overlapping bursts, and process each in order.  A loader error
propagates uncaught after the events emitted so far. -/
def main_body (env : Env) (args : Args) (h : ℚ) : List Event × Option String :=
  let r := get_overlapping_bursts env args.s1_file args.lon args.lat
      args.orbit_dir args.pol
  match r.2 with
  | Except.error e => (Event.printHeader :: r.1, some e)
  | Except.ok bursts =>
      (Event.printHeader :: (r.1 ++ (bursts.map (process_burst env args h)).flatten),
       none)

/-- `main` from `s1_geo2rdr.py`, after argument parsing: resolve the height
(`--height` first, else DEM lookup, else a `ValueError`), then run the body.
(Named `cli_main` because Lean reserves `main` for an IO entry point.) -/
def cli_main (env : Env) (args : Args) : List Event × Option String :=
  match args.height with
  | some h => main_body env args h
  | none =>
    match args.dem with
    | some dem_file =>
        let h := get_height_from_dem args.lon args.lat (env.openRaster dem_file)
        let r := main_body env args h
        (Event.openRaster dem_file :: r.1, r.2)
    | none => ([], some "ValueError: Must specify either --height or --dem")

/-- The byte-for-byte standard output of a run: the header literal for the
header print event, the row string for each row print event. -/
def outputLines : List Event → List String
  | [] => []
  | Event.printHeader :: rest =>
      "lon,lat,az_idx,range_idx,burst_id,tiff_path" :: outputLines rest
  | Event.printRow s :: rest => s :: outputLines rest
  | _ :: rest => outputLines rest

/-- Modelled from the spec: `s1reader.load_bursts` for Sentinel-1
stripmap-mode products (the loader's code is not under `src/`; only its
tests are).  Spec section 4.5: given product path, orbit path, swath number
and polarization, the loader "returns exactly one burst object per call
representing the entire swath, with `burst_id` set to an absent/null value",
exposing the upper-cased polarization code.  The swath-wide metadata carried
by the product is abstracted as `swath_data`. -/
def load_bursts_stripmap (swath_data : Burst) (s1_file : String)
    (orbit_file : Option String) (swath_num : ℕ) (pol : String) : List Burst :=
  let _ := s1_file
  let _ := orbit_file
  [{ swath_data with
      burst_id := none
      iw := swath_num
      polarization := pol.toUpper }]

/-- The raster used in the C1 counterexample: unit geotransform anchored at
the origin with the usual negative pixel height; band 1 records the column
index so differing column lookups give differing values. -/
def C1raster : Raster where
  gt0 := 0
  gt1 := 1
  gt2 := 0
  gt3 := 0
  gt4 := 0
  gt5 := -1
  band1 := fun px _ => (px : ℚ)

/-- The raster used in the C1 witness. -/
def C1wraster : Raster where
  gt0 := 0
  gt1 := 1
  gt2 := 0
  gt3 := 0
  gt4 := 0
  gt5 := -1
  band1 := fun px py => px + 2 * py

/-- A constant-height raster for witnesses. -/
def flatRaster : Raster where
  gt0 := 0
  gt1 := 1
  gt2 := 0
  gt3 := 0
  gt4 := 0
  gt5 := -1
  band1 := fun _ _ => 10

/-- A unit radar grid for witnesses. -/
def rgW : RadarGrid where
  sensing_start := 0
  az_time_interval := 1
  starting_range := 0
  range_pixel_spacing := 1

/-- A concrete IW burst for witnesses. -/
def burstW : Burst where
  burst_id := some "t071_151200_iw1"
  iw := 1
  tiff_path := "measurement/a.tiff"
  radar_grid := rgW
  polarization := "VV"
  platform_id := "S1A"
  shape := (1500, 25000)

/-- A concrete stripmap-style burst (absent burst id) for witnesses. -/
def burstN : Burst :=
  { burstW with burst_id := none, iw := 3 }

/-- A witness environment whose loader finds no bursts. -/
def envW : Env where
  openRaster := fun _ => flatRaster
  getOrbitFile := fun _ _ => "orbit.eof"
  loadBursts := fun _ _ _ _ => Except.ok []
  contains := fun _ _ _ => false
  geo2rdr := fun _ _ _ _ => (0, 0)

/-- A witness environment whose loader returns one containing IW burst and
whose solver answers an azimuth time before the sensing start (so the
azimuth index is negative). -/
def envRows : Env :=
  { envW with
      loadBursts := fun _ _ iw _ => if iw = 1 then Except.ok [burstW] else Except.ok []
      contains := fun _ _ _ => true
      geo2rdr := fun _ _ _ _ => (-5, 7) }

/-- A witness environment whose loader returns only bursts with an absent
burst id (as a stripmap product yields). -/
def envStrip : Env :=
  { envW with
      loadBursts := fun _ _ iw _ => if iw = 3 then Except.ok [burstN] else Except.ok []
      contains := fun _ _ _ => true
      geo2rdr := fun _ _ _ _ => (-5, 7) }

/-- Witness arguments with an explicit height. -/
def argsHW : Args :=
  { lon := 1, lat := 2, s1_file := "S1A_IW_SLC.zip", height := some 10 }

/-- Witness arguments with neither height nor DEM. -/
def argsNW : Args :=
  { lon := 1, lat := 2, s1_file := "S1A_IW_SLC.zip" }

/-- Witness arguments with a DEM and no explicit height. -/
def argsDW : Args :=
  { lon := 1, lat := 2, s1_file := "S1A_IW_SLC.zip", dem := some "dem.tif" }

/-- Witness arguments with a burst-id filter. -/
def argsBW : Args :=
  { argsHW with burst_id := some "t071_151200_iw1" }

/-- On nonnegative arguments, Python truncation agrees with floor. -/
theorem pyTrunc_eq_floor_of_nonneg (q : ℚ) (h : 0 ≤ q) : pyTrunc q = ⌊q⌋ :=
  if_pos h

/-- `pyRound` returns the floor or the floor plus one. -/
theorem pyRound_mem (q : ℚ) : pyRound q = ⌊q⌋ ∨ pyRound q = ⌊q⌋ + 1 := by
  unfold pyRound
  dsimp only
  split
  · exact Or.inl rfl
  · split
    · exact Or.inr rfl
    · split
      · exact Or.inl rfl
      · exact Or.inr rfl

/-- `pyRound` is a nearest integer: no integer is strictly closer. -/
theorem pyRound_nearest (q : ℚ) (n : ℤ) :
    |q - (pyRound q : ℚ)| ≤ |q - (n : ℚ)| := by
  have hf : (⌊q⌋ : ℚ) ≤ q := Int.floor_le q
  have hf1 : q < ⌊q⌋ + 1 := Int.lt_floor_add_one q
  have hcase : (n : ℚ) ≤ ⌊q⌋ ∨ (⌊q⌋ : ℚ) + 1 ≤ n := by
    rcases le_or_lt n ⌊q⌋ with h | h
    · exact Or.inl (by exact_mod_cast h)
    · right
      exact_mod_cast h
  unfold pyRound
  dsimp only
  split
  · rename_i hlt
    rw [abs_of_nonneg (by linarith)]
    rcases hcase with h | h
    · rw [abs_of_nonneg (by linarith)]
      linarith
    · rw [abs_of_nonpos (by linarith)]
      linarith
  · rename_i hge
    split
    · rename_i hgt
      push_cast
      rw [abs_of_nonpos (by linarith)]
      rcases hcase with h | h
      · rw [abs_of_nonneg (by linarith)]
        linarith
      · rw [abs_of_nonpos (by linarith)]
        linarith
    · rename_i hle
      have htie : q - ⌊q⌋ = 1/2 := le_antisymm (not_lt.mp hle) (not_lt.mp hge)
      have hn : (1:ℚ)/2 ≤ |q - n| := by
        rcases hcase with h | h
        · rw [abs_of_nonneg (by linarith)]
          linarith
        · rw [abs_of_nonpos (by linarith)]
          linarith
      split
      · rw [abs_of_nonneg (by linarith)]
        linarith
      · push_cast
        rw [abs_of_nonpos (by linarith)]
        linarith

/-- At an exact tie (fractional part one half), `pyRound` picks the even
neighbour. -/
theorem pyRound_tie_even (q : ℚ) (h : q - ⌊q⌋ = 1/2) : pyRound q % 2 = 0 := by
  have hge : ¬(q - (⌊q⌋ : ℚ) < 1/2) := by
    rw [h]
    exact lt_irrefl _
  have hle : ¬((1:ℚ)/2 < q - (⌊q⌋ : ℚ)) := by
    rw [h]
    exact lt_irrefl _
  unfold pyRound
  dsimp only
  rw [if_neg hge, if_neg hle]
  split
  · assumption
  · omega

/-- C1 counterexample: at lon = -1/2, lat = 1/2 on a raster with geotransform
(0, 1, 0, 0, 0, -1), `_get_height_from_dem` reads pixel column
`int(-1/2) = 0`, whereas the claimed `floor(-1/2) = -1`; the returned value
is the pixel at column 0, not the pixel at column -1. -/
theorem C1_counterexample :
    get_height_from_dem (-1/2) (1/2) C1raster ≠
      C1raster.band1 ⌊(((-1)/2 : ℚ) - C1raster.gt0) / C1raster.gt1⌋
        ⌊((1/2 : ℚ) - C1raster.gt3) / C1raster.gt5⌋ := by
  norm_num [get_height_from_dem, C1raster, pyTrunc, Int.ceil_neg]

/-- C1 (amended): the DEM height lookup computes the pixel indices with
Python `int` truncation toward zero, `px = int((lon - originX)/pixelWidth)`,
`py = int((lat - originY)/pixelHeight)`, and returns the value of the 1x1
pixel at (px, py) read from band 1; truncation agrees with the claimed floor
exactly when the quotient is nonnegative. -/
theorem C1_height_lookup_trunc :
    (∀ (lon lat : ℚ) (ds : Raster),
        get_height_from_dem lon lat ds =
          ds.band1 (pyTrunc ((lon - ds.gt0) / ds.gt1))
            (pyTrunc ((lat - ds.gt3) / ds.gt5))) ∧
    (∀ q : ℚ, 0 ≤ q → pyTrunc q = ⌊q⌋) :=
  ⟨fun _ _ _ => rfl, fun _ hq => if_pos hq⟩

/-- C1 witness: the amended lookup theorem applied at lon = 5, lat = 3 on a
concrete raster, and floor-agreement discharged at the nonnegative 7/2. -/
theorem C1_height_lookup_trunc_witness :
    get_height_from_dem 5 3 C1wraster =
      C1wraster.band1 (pyTrunc ((5 - C1wraster.gt0) / C1wraster.gt1))
        (pyTrunc ((3 - C1wraster.gt3) / C1wraster.gt5)) ∧
    pyTrunc (7/2) = ⌊(7/2 : ℚ)⌋ :=
  ⟨C1_height_lookup_trunc.1 5 3 C1wraster,
   C1_height_lookup_trunc.2 (7/2) (by norm_num)⟩

example : pyTrunc (-1/2) = 0 := by norm_num [pyTrunc]
example : pyTrunc (1/2) = 0 := by norm_num [pyTrunc]
example : pyTrunc (-3/2) = -1 := by norm_num [pyTrunc, Int.ceil_neg]
example : pyRound (1/2) = 0 := by norm_num [pyRound]
example : pyRound (3/2) = 2 := by norm_num [pyRound]
example : pyRound (5/2) = 2 := by norm_num [pyRound]
example : pyRound (-1/2) = 0 := by norm_num [pyRound]
example : pyRound (-3/2) = -2 := by norm_num [pyRound]
example : pyRound (7/5) = 1 := by norm_num [pyRound]

/-- Every event emitted by the overlapping-burst search is an orbit
resolution or a sub-swath load. -/
theorem mem_overlap_events (env : Env) (f : String) (lon lat : ℚ)
    (od : Option String) (pol : String) (e : Event)
    (he : e ∈ (get_overlapping_bursts env f lon lat od pol).1) :
    (∃ d, e = Event.resolveOrbit d) ∨ (∃ i, e = Event.loadBursts i) := by
  unfold get_overlapping_bursts at he
  dsimp only at he
  repeat' split at he
  all_goals
    simp only [List.mem_append, List.mem_cons, List.not_mem_nil, or_false,
      false_or] at he
  all_goals aesop

/-- The per-burst loop body emits at most a single row print. -/
theorem process_burst_events (env : Env) (args : Args) (h : ℚ) (b : Burst)
    (e : Event) (he : e ∈ process_burst env args h b) :
    ∃ s, e = Event.printRow s := by
  unfold process_burst at he
  split at he
  · simp only [List.mem_singleton] at he
    exact ⟨_, he⟩
  · simp at he

/-- Every event emitted by the post-height body of `main` is the header
print, an orbit resolution, a sub-swath load, or a row print. -/
theorem mem_main_body_events (env : Env) (args : Args) (h : ℚ) (e : Event)
    (he : e ∈ (main_body env args h).1) :
    e = Event.printHeader ∨ (∃ d, e = Event.resolveOrbit d) ∨
      (∃ i, e = Event.loadBursts i) ∨ (∃ s, e = Event.printRow s) := by
  unfold main_body at he
  dsimp only at he
  split at he <;>
    simp only [List.mem_cons, List.mem_append] at he
  · rcases he with he | he
    · exact Or.inl he
    · rcases mem_overlap_events env args.s1_file args.lon args.lat
        args.orbit_dir args.pol e he with h' | h'
      · exact Or.inr (Or.inl h')
      · exact Or.inr (Or.inr (Or.inl h'))
  · rcases he with he | he | he
    · exact Or.inl he
    · rcases mem_overlap_events env args.s1_file args.lon args.lat
        args.orbit_dir args.pol e he with h' | h'
      · exact Or.inr (Or.inl h')
      · exact Or.inr (Or.inr (Or.inl h'))
    · rw [List.mem_flatten] at he
      obtain ⟨l, hl, hel⟩ := he
      rw [List.mem_map] at hl
      obtain ⟨b, _, rfl⟩ := hl
      exact Or.inr (Or.inr (Or.inr (process_burst_events _ _ _ _ _ hel)))

/-- The post-height body never opens a raster. -/
theorem main_body_no_openRaster (env : Env) (args : Args) (h : ℚ)
    (p : String) : Event.openRaster p ∉ (main_body env args h).1 := by
  intro hmem
  rcases mem_main_body_events env args h _ hmem with h' | ⟨d, h'⟩ | ⟨i, h'⟩ |
    ⟨s, h'⟩ <;> simp at h'

/-- The post-height body depends only on the orbit, loader, containment and
solver oracles, not on the raster oracle. -/
theorem main_body_env_congr (env env2 : Env) (args : Args) (h : ℚ)
    (h1 : env2.getOrbitFile = env.getOrbitFile)
    (h2 : env2.loadBursts = env.loadBursts)
    (h3 : env2.contains = env.contains)
    (h4 : env2.geo2rdr = env.geo2rdr) :
    main_body env2 args h = main_body env args h := by
  cases env
  cases env2
  dsimp only at h1 h2 h3 h4
  subst h1
  subst h2
  subst h3
  subst h4
  rfl

/-- C2: height resolution of `main`: an explicit `--height` is used directly
— the run equals the body at that height, opens no raster, and is
insensitive to the raster oracle even when `--dem` is also given; with only
`--dem`, the height is the DEM lookup on the opened raster; with neither,
the run fails with the `ValueError` usage message and an empty event trace
(no raster or product I/O at all). -/
theorem C2_height_resolution (env env2 : Env) (args : Args) :
    (∀ h, args.height = some h →
        cli_main env args = main_body env args h ∧
        (∀ p, Event.openRaster p ∉ (cli_main env args).1) ∧
        (env2.getOrbitFile = env.getOrbitFile →
         env2.loadBursts = env.loadBursts →
         env2.contains = env.contains →
         env2.geo2rdr = env.geo2rdr →
         cli_main env2 args = cli_main env args)) ∧
    (args.height = none → ∀ d, args.dem = some d →
        cli_main env args =
          (Event.openRaster d ::
             (main_body env args
               (get_height_from_dem args.lon args.lat (env.openRaster d))).1,
           (main_body env args
               (get_height_from_dem args.lon args.lat (env.openRaster d))).2)) ∧
    (args.height = none → args.dem = none →
        cli_main env args =
          ([], some "ValueError: Must specify either --height or --dem")) := by
  refine ⟨?_, ?_, ?_⟩
  · intro h hh
    refine ⟨?_, ?_, ?_⟩
    · unfold cli_main
      rw [hh]
    · intro p
      unfold cli_main
      rw [hh]
      exact main_body_no_openRaster env args h p
    · intro e1 e2 e3 e4
      unfold cli_main
      rw [hh]
      exact main_body_env_congr env env2 args h e1 e2 e3 e4
  · intro hh d hd
    unfold cli_main
    rw [hh, hd]
  · intro hh hd
    unfold cli_main
    rw [hh, hd]

/-- C2 witness: with `--height 10` the run is the body at height 10; with
neither `--height` nor `--dem` it is the usage `ValueError` with an empty
trace. -/
theorem C2_height_resolution_witness :
    cli_main envW argsHW = main_body envW argsHW 10 ∧
    cli_main envW argsNW =
      ([], some "ValueError: Must specify either --height or --dem") :=
  ⟨((C2_height_resolution envW envW argsHW).1 10 rfl).1,
   (C2_height_resolution envW envW argsNW).2.2 rfl rfl⟩

/-- A burst passing both filters produces exactly its CSV row print. -/
theorem process_burst_keep (env : Env) (args : Args) (h : ℚ) (burst : Burst)
    (hkeep : keep_burst args burst = true) :
    process_burst env args h burst =
      [Event.printRow (formatRow args.lon args.lat
        (pyRound (((env.geo2rdr args.lon args.lat h burst).1 -
            burst.radar_grid.sensing_start) /
            burst.radar_grid.az_time_interval))
        (pyRound (((env.geo2rdr args.lon args.lat h burst).2 -
            burst.radar_grid.starting_range) /
            burst.radar_grid.range_pixel_spacing))
        burst.burst_id burst.tiff_path)] := by
  unfold process_burst
  rw [if_pos hkeep]

/-- A burst failing a filter produces no events. -/
theorem process_burst_skip (env : Env) (args : Args) (h : ℚ) (burst : Burst)
    (hkeep : keep_burst args burst = false) :
    process_burst env args h burst = [] := by
  unfold process_burst
  rw [if_neg (by simp [hkeep])]

/-- C3: for every burst passing the filters, the printed pixel indices are
computed from the solver result (azimuth_time, slant_range) exactly as
az_idx = pyRound((azimuth_time - sensing_start)/az_time_interval) and
range_idx = pyRound((slant_range - starting_range)/range_pixel_spacing),
where pyRound is nearest-integer rounding resolving exact ties to the even
neighbour (round-half-to-even); no clamping is applied — the indices are
printed unchanged, whatever their sign or size. -/
theorem C3_pixel_indices (env : Env) (args : Args) (h : ℚ) (burst : Burst)
    (hkeep : keep_burst args burst = true) :
    process_burst env args h burst =
      [Event.printRow (formatRow args.lon args.lat
        (pyRound (((env.geo2rdr args.lon args.lat h burst).1 -
            burst.radar_grid.sensing_start) /
            burst.radar_grid.az_time_interval))
        (pyRound (((env.geo2rdr args.lon args.lat h burst).2 -
            burst.radar_grid.starting_range) /
            burst.radar_grid.range_pixel_spacing))
        burst.burst_id burst.tiff_path)] ∧
    (∀ (q : ℚ) (n : ℤ), |q - (pyRound q : ℚ)| ≤ |q - (n : ℚ)|) ∧
    (∀ q : ℚ, q - ⌊q⌋ = 1/2 → pyRound q % 2 = 0) :=
  ⟨process_burst_keep env args h burst hkeep, pyRound_nearest, pyRound_tie_even⟩

/-- C3 witness: an unfiltered burst whose solver result lies five azimuth
intervals before the sensing start: the row is printed with the negative
azimuth index, unclamped; the tie at 3/2 rounds to the even 2. -/
theorem C3_pixel_indices_witness :
    process_burst envRows argsHW 10 burstW =
      [Event.printRow (formatRow argsHW.lon argsHW.lat
        (pyRound (((envRows.geo2rdr argsHW.lon argsHW.lat 10 burstW).1 -
            burstW.radar_grid.sensing_start) /
            burstW.radar_grid.az_time_interval))
        (pyRound (((envRows.geo2rdr argsHW.lon argsHW.lat 10 burstW).2 -
            burstW.radar_grid.starting_range) /
            burstW.radar_grid.range_pixel_spacing))
        burstW.burst_id burstW.tiff_path)] ∧
    pyRound (((envRows.geo2rdr argsHW.lon argsHW.lat 10 burstW).1 -
        burstW.radar_grid.sensing_start) /
        burstW.radar_grid.az_time_interval) < 0 ∧
    pyRound (3/2) % 2 = 0 :=
  ⟨(C3_pixel_indices envRows argsHW 10 burstW rfl).1,
   by norm_num [envRows, envW, burstW, rgW, pyRound],
   (C3_pixel_indices envRows argsHW 10 burstW rfl).2.2 (3/2) (by norm_num)⟩

/-- C4: the overlapping-burst search loads sub-swaths 1, 2, 3 in ascending
order and returns exactly the loaded bursts whose footprint contains the
point, concatenated sub-swath-ascending with loader order preserved inside
each sub-swath; a point contained in no footprint yields the empty list, an
empty result rather than an error. -/
theorem C4_overlapping_bursts (env : Env) (f : String) (lon lat : ℚ)
    (od : Option String) (pol : String) (l1 l2 l3 : List Burst)
    (h1 : env.loadBursts f (orbitFileOf env f od) 1 pol = Except.ok l1)
    (h2 : env.loadBursts f (orbitFileOf env f od) 2 pol = Except.ok l2)
    (h3 : env.loadBursts f (orbitFileOf env f od) 3 pol = Except.ok l3) :
    (get_overlapping_bursts env f lon lat od pol).2 =
      Except.ok (l1.filter (fun b => env.contains b lon lat) ++
        l2.filter (fun b => env.contains b lon lat) ++
        l3.filter (fun b => env.contains b lon lat)) ∧
    ((∀ b, env.contains b lon lat = false) →
      (get_overlapping_bursts env f lon lat od pol).2 = Except.ok []) := by
  have key : (get_overlapping_bursts env f lon lat od pol).2 =
      Except.ok (l1.filter (fun b => env.contains b lon lat) ++
        l2.filter (fun b => env.contains b lon lat) ++
        l3.filter (fun b => env.contains b lon lat)) := by
    unfold get_overlapping_bursts
    dsimp only
    rw [h1, h2, h3]
  refine ⟨key, fun hout => ?_⟩
  have hfil : ∀ (l : List Burst),
      l.filter (fun b => env.contains b lon lat) = [] := by
    intro l
    apply List.filter_eq_nil_iff.mpr
    intro a _
    simp [hout a]
  rw [key, hfil l1, hfil l2, hfil l3]
  rfl

/-- C4 witness: a loader producing no bursts and a containment test that
never holds give the empty result. -/
theorem C4_overlapping_bursts_witness :
    (get_overlapping_bursts envW "S1A_IW_SLC.zip" 1 2 none "vv").2 =
      Except.ok (List.filter (fun b => envW.contains b 1 2) [] ++
        List.filter (fun b => envW.contains b 1 2) [] ++
        List.filter (fun b => envW.contains b 1 2) []) ∧
    (get_overlapping_bursts envW "S1A_IW_SLC.zip" 1 2 none "vv").2 =
      Except.ok [] :=
  ⟨(C4_overlapping_bursts envW "S1A_IW_SLC.zip" 1 2 none "vv" [] [] []
      rfl rfl rfl).1,
   (C4_overlapping_bursts envW "S1A_IW_SLC.zip" 1 2 none "vv" [] [] []
      rfl rfl rfl).2 (fun _ => rfl)⟩

/-- C5: a found burst is printed iff it passes both optional filters: under
`--burst-id` only a burst with that exact id passes, under `--iw` only a
burst with that sub-swath passes; a passing burst yields exactly its CSV row
lon,lat,az_idx,range_idx,burst_id,tiff_path and a failing one yields no
output. -/
theorem C5_filters (env : Env) (args : Args) (h : ℚ) (burst : Burst) :
    ((args.burst_id = none ∨ args.burst_id = burst.burst_id) ∧
     (args.iw = none ∨ args.iw = some burst.iw) →
      process_burst env args h burst =
        [Event.printRow (formatRow args.lon args.lat
          (pyRound (((env.geo2rdr args.lon args.lat h burst).1 -
              burst.radar_grid.sensing_start) /
              burst.radar_grid.az_time_interval))
          (pyRound (((env.geo2rdr args.lon args.lat h burst).2 -
              burst.radar_grid.starting_range) /
              burst.radar_grid.range_pixel_spacing))
          burst.burst_id burst.tiff_path)]) ∧
    (((∃ b, args.burst_id = some b ∧ burst.burst_id ≠ some b) ∨
      (∃ i, args.iw = some i ∧ burst.iw ≠ i)) →
      process_burst env args h burst = []) := by
  constructor
  · rintro ⟨hb, hi⟩
    apply process_burst_keep
    unfold keep_burst
    have hb' : (match args.burst_id with
        | none => true
        | some b => burst.burst_id == some b) = true := by
      rcases hb with hb | hb
      · rw [hb]
      · rw [hb]
        cases burst.burst_id <;> simp
    have hi' : (match args.iw with
        | none => true
        | some i => burst.iw == i) = true := by
      rcases hi with hi | hi
      · rw [hi]
      · rw [hi]
        simp
    rw [hb', hi']
    rfl
  · rintro (⟨b, hab, hneq⟩ | ⟨i, hai, hneq⟩)
    · apply process_burst_skip
      unfold keep_burst
      rw [hab]
      dsimp only
      have : (burst.burst_id == some b) = false := beq_eq_false_iff_ne.mpr hneq
      rw [this]
      rfl
    · apply process_burst_skip
      unfold keep_burst
      rw [hai]
      dsimp only
      have : (burst.iw == i) = false := beq_eq_false_iff_ne.mpr hneq
      rw [this]
      simp

/-- C5 witness: with `--burst-id t071_151200_iw1`, the matching burst is
printed as its CSV row and a burst with an absent id is skipped. -/
theorem C5_filters_witness :
    process_burst envRows argsBW 10 burstW =
      [Event.printRow (formatRow argsBW.lon argsBW.lat
        (pyRound (((envRows.geo2rdr argsBW.lon argsBW.lat 10 burstW).1 -
            burstW.radar_grid.sensing_start) /
            burstW.radar_grid.az_time_interval))
        (pyRound (((envRows.geo2rdr argsBW.lon argsBW.lat 10 burstW).2 -
            burstW.radar_grid.starting_range) /
            burstW.radar_grid.range_pixel_spacing))
        burstW.burst_id burstW.tiff_path)] ∧
    process_burst envRows argsBW 10 burstN = [] :=
  ⟨(C5_filters envRows argsBW 10 burstW).1 ⟨Or.inr rfl, Or.inl rfl⟩,
   (C5_filters envRows argsBW 10 burstN).2
     (Or.inl ⟨"t071_151200_iw1", rfl, by simp [burstN, burstW]⟩)⟩

/-- C6: `--outfile` (with any `--buffer`) is observably inert: a run with it
is identical — event trace, output and error — to the run without it; the
pixel window is computed in `process_burst` and discarded. -/
theorem C6_outfile_inert (env : Env) (args : Args) (p : String) (b : ℤ) :
    cli_main env { args with outfile := some p, buffer := b } =
      cli_main env { args with outfile := none } := rfl

/-- C7: the CLI is deterministic: two runs with the same arguments in which
every external collaborator (raster access, orbit resolution, burst loader,
containment test, geo2rdr solver) answers identically produce the identical
event trace and byte-identical standard output. -/
theorem C7_deterministic (env1 env2 : Env) (args : Args)
    (h1 : env1.openRaster = env2.openRaster)
    (h2 : env1.getOrbitFile = env2.getOrbitFile)
    (h3 : env1.loadBursts = env2.loadBursts)
    (h4 : env1.contains = env2.contains)
    (h5 : env1.geo2rdr = env2.geo2rdr) :
    cli_main env1 args = cli_main env2 args ∧
    outputLines (cli_main env1 args).1 = outputLines (cli_main env2 args).1 := by
  have henv : env1 = env2 := by
    cases env1
    cases env2
    dsimp only at h1 h2 h3 h4 h5
    subst h1
    subst h2
    subst h3
    subst h4
    subst h5
    rfl
  rw [henv]
  exact ⟨rfl, rfl⟩

/-- C7 witness: the determinism theorem applied to a concrete run. -/
theorem C7_deterministic_witness :
    cli_main envW argsHW = cli_main envW argsHW ∧
    outputLines (cli_main envW argsHW).1 = outputLines (cli_main envW argsHW).1 :=
  C7_deterministic envW envW argsHW rfl rfl rfl rfl rfl

/-- C8: the stripmap loading contract: for every product, orbit file, swath
number and polarization, the loader returns a list containing exactly one
burst representing the whole swath, and that burst's burst id is the absent
value. -/
theorem C8_stripmap_single (sd : Burst) (f : String) (o : Option String)
    (n : ℕ) (p : String) :
    ∃ b, load_bursts_stripmap sd f o n p = [b] ∧ b.burst_id = none :=
  ⟨_, rfl, rfl⟩

/-- Every burst in a successful overlapping-burst result came from one of
the three sub-swath loads. -/
theorem mem_overlap_result (env : Env) (f : String) (lon lat : ℚ)
    (od : Option String) (pol : String) (bs : List Burst)
    (hok : (get_overlapping_bursts env f lon lat od pol).2 = Except.ok bs)
    (b : Burst) (hb : b ∈ bs) :
    ∃ iw l, env.loadBursts f (orbitFileOf env f od) iw pol = Except.ok l ∧
      b ∈ l := by
  unfold get_overlapping_bursts at hok
  dsimp only at hok
  rcases h1 : env.loadBursts f (orbitFileOf env f od) 1 pol with e1 | l1 <;>
    rw [h1] at hok
  · exact absurd hok (by simp)
  rcases h2 : env.loadBursts f (orbitFileOf env f od) 2 pol with e2 | l2 <;>
    rw [h2] at hok
  · exact absurd hok (by simp)
  rcases h3 : env.loadBursts f (orbitFileOf env f od) 3 pol with e3 | l3 <;>
    rw [h3] at hok
  · exact absurd hok (by simp)
  simp only [Except.ok.injEq] at hok
  subst hok
  rcases List.mem_append.mp hb with hb' | hb'
  · rcases List.mem_append.mp hb' with hb'' | hb''
    · exact ⟨1, l1, h1, (List.mem_filter.mp hb'').1⟩
    · exact ⟨2, l2, h2, (List.mem_filter.mp hb'').1⟩
  · exact ⟨3, l3, h3, (List.mem_filter.mp hb').1⟩

/-- The post-height body starts with the header print; everything after it
is an orbit resolution, a sub-swath load, or a row print. -/
theorem main_body_head (env : Env) (args : Args) (h : ℚ) :
    ∃ rest, (main_body env args h).1 = Event.printHeader :: rest ∧
      ∀ e ∈ rest, (∃ d, e = Event.resolveOrbit d) ∨
        (∃ i, e = Event.loadBursts i) ∨ (∃ s, e = Event.printRow s) := by
  unfold main_body
  dsimp only
  split
  · refine ⟨_, rfl, ?_⟩
    intro e he
    exact (mem_overlap_events env args.s1_file args.lon args.lat
      args.orbit_dir args.pol e he).imp id Or.inl
  · refine ⟨_, rfl, ?_⟩
    intro e he
    rcases List.mem_append.mp he with h' | h'
    · exact (mem_overlap_events env args.s1_file args.lon args.lat
        args.orbit_dir args.pol e h').imp id Or.inl
    · rw [List.mem_flatten] at h'
      obtain ⟨l, hl, hel⟩ := h'
      rw [List.mem_map] at hl
      obtain ⟨b, _, rfl⟩ := hl
      exact Or.inr (Or.inr (process_burst_events _ _ _ _ _ hel))

/-- `outputLines` distributes over trace concatenation. -/
theorem outputLines_append (l1 l2 : List Event) :
    outputLines (l1 ++ l2) = outputLines l1 ++ outputLines l2 := by
  induction l1 with
  | nil => rfl
  | cons e rest ih => cases e <;> simp [outputLines, ih]

/-- A trace with no print events produces no output. -/
theorem outputLines_eq_nil (l : List Event)
    (h : ∀ e ∈ l, e ≠ Event.printHeader ∧ ∀ s, e ≠ Event.printRow s) :
    outputLines l = [] := by
  induction l with
  | nil => rfl
  | cons e rest ih =>
    have he := h e (List.mem_cons_self e rest)
    have ih' := ih (fun x hx => h x (List.mem_cons_of_mem _ hx))
    cases e with
    | openRaster p => simpa [outputLines] using ih'
    | resolveOrbit d => simpa [outputLines] using ih'
    | loadBursts i => simpa [outputLines] using ih'
    | printHeader => exact absurd rfl he.1
    | printRow s => exact absurd rfl (he.2 s)

/-- C9: with `--burst-id` supplied, a burst whose burst id is the absent
value always fails the inequality filter and is skipped; hence against a
product whose loader only yields absent-id bursts (as every stripmap product
does) the run prints no data row at all, whatever the other arguments. -/
theorem C9_burst_id_stripmap (env : Env) (args : Args) (s : String)
    (hid : args.burst_id = some s)
    (hload : ∀ f o iw p l, env.loadBursts f o iw p = Except.ok l →
        ∀ b ∈ l, b.burst_id = none) :
    (∀ (h : ℚ) (b : Burst), b.burst_id = none →
        process_burst env args h b = []) ∧
    (∀ r, Event.printRow r ∉ (cli_main env args).1) := by
  have hskip : ∀ (h : ℚ) (b : Burst), b.burst_id = none →
      process_burst env args h b = [] := by
    intro h b hbid
    apply process_burst_skip
    unfold keep_burst
    rw [hid, hbid]
    rfl
  refine ⟨hskip, ?_⟩
  have key : ∀ h r, Event.printRow r ∉ (main_body env args h).1 := by
    intro h r hmem
    unfold main_body at hmem
    dsimp only at hmem
    split at hmem <;> rename_i heq <;>
      simp only [List.mem_cons, List.mem_append] at hmem
    · rcases hmem with hm | hm
      · exact absurd hm (by simp)
      · rcases mem_overlap_events env args.s1_file args.lon args.lat
          args.orbit_dir args.pol _ hm with ⟨d, hd⟩ | ⟨i, hi⟩ <;> simp_all
    · rcases hmem with hm | hm | hm
      · exact absurd hm (by simp)
      · rcases mem_overlap_events env args.s1_file args.lon args.lat
          args.orbit_dir args.pol _ hm with ⟨d, hd⟩ | ⟨i, hi⟩ <;> simp_all
      · rw [List.mem_flatten] at hm
        obtain ⟨l, hl, hel⟩ := hm
        rw [List.mem_map] at hl
        obtain ⟨b, hbmem, rfl⟩ := hl
        obtain ⟨iw, lw, hlw, hblw⟩ := mem_overlap_result env args.s1_file
          args.lon args.lat args.orbit_dir args.pol _ heq b hbmem
        rw [hskip h b (hload _ _ _ _ _ hlw b hblw)] at hel
        exact absurd hel (List.not_mem_nil _)
  intro r hr
  rcases hh : args.height with _ | h
  · rcases hd : args.dem with _ | d
    · unfold cli_main at hr
      rw [hh, hd] at hr
      exact absurd hr (List.not_mem_nil _)
    · unfold cli_main at hr
      rw [hh, hd] at hr
      dsimp only at hr
      rcases List.mem_cons.mp hr with h' | h'
      · exact absurd h' (by simp)
      · exact key _ r h'
  · unfold cli_main at hr
    rw [hh] at hr
    exact key h r hr

/-- C9 witness: with the burst-id filter on, a stripmap-style absent-id
burst is skipped and the concrete run prints no data row. -/
theorem C9_burst_id_stripmap_witness :
    process_burst envStrip argsBW 10 burstN = [] ∧
    Event.printRow "1,2,0,0,None,measurement/a.tiff" ∉
      (cli_main envStrip argsBW).1 := by
  have hload : ∀ f o iw p l, envStrip.loadBursts f o iw p = Except.ok l →
      ∀ b ∈ l, b.burst_id = none := by
    intro f o iw p l hl b hb
    have hl' : (if iw = 3 then Except.ok [burstN]
        else Except.ok ([] : List Burst)) = Except.ok l := hl
    split at hl' <;> simp only [Except.ok.injEq] at hl' <;> subst hl'
    · rcases List.mem_singleton.mp hb with rfl
      rfl
    · exact absurd hb (List.not_mem_nil _)
  exact ⟨(C9_burst_id_stripmap envStrip argsBW "t071_151200_iw1" rfl hload).1
      10 burstN rfl,
    (C9_burst_id_stripmap envStrip argsBW "t071_151200_iw1" rfl hload).2
      "1,2,0,0,None,measurement/a.tiff"⟩

/-- C10: whenever a height source is present the CSV header is printed
exactly once, after any raster access and before every orbit resolution,
burst load or row print; if the run prints no data row (point overlapping no
burst, every burst filtered out, or a loader failure) the standard output is
exactly the header line; and an error raised during burst loading surfaces
only with the header already in the emitted trace. -/
theorem C10_header_once (env : Env) (args : Args)
    (hres : args.height ≠ none ∨ args.dem ≠ none) :
    (cli_main env args).1.count Event.printHeader = 1 ∧
    (∃ pre post, (cli_main env args).1 = pre ++ Event.printHeader :: post ∧
      (∀ e ∈ pre, ∃ p, e = Event.openRaster p) ∧
      Event.printHeader ∉ post) ∧
    ((cli_main env args).2.isSome →
      Event.printHeader ∈ (cli_main env args).1) ∧
    ((∀ r, Event.printRow r ∉ (cli_main env args).1) →
      outputLines (cli_main env args).1 =
        ["lon,lat,az_idx,range_idx,burst_id,tiff_path"]) := by
  obtain ⟨pre, post, htr, hpre, hpost⟩ :
      ∃ pre post, (cli_main env args).1 = pre ++ Event.printHeader :: post ∧
        (∀ e ∈ pre, ∃ p, e = Event.openRaster p) ∧
        (∀ e ∈ post, (∃ d, e = Event.resolveOrbit d) ∨
          (∃ i, e = Event.loadBursts i) ∨ (∃ s, e = Event.printRow s)) := by
    rcases hh : args.height with _ | h
    · rcases hd : args.dem with _ | d
      · rcases hres with hc | hc
        · exact absurd hh hc
        · exact absurd hd hc
      · obtain ⟨rest, hr, hrest⟩ := main_body_head env args
          (get_height_from_dem args.lon args.lat (env.openRaster d))
        have hcm : (cli_main env args).1 =
            Event.openRaster d ::
              (main_body env args
                (get_height_from_dem args.lon args.lat
                  (env.openRaster d))).1 := by
          unfold cli_main
          rw [hh, hd]
        refine ⟨[Event.openRaster d], rest, ?_, ?_, hrest⟩
        · rw [List.singleton_append, hcm, hr]
        · intro e he
          rcases List.mem_singleton.mp he with rfl
          exact ⟨d, rfl⟩
    · obtain ⟨rest, hr, hrest⟩ := main_body_head env args h
      have hcm : (cli_main env args).1 = (main_body env args h).1 := by
        unfold cli_main
        rw [hh]
      refine ⟨[], rest, ?_, by simp, hrest⟩
      rw [List.nil_append, hcm, hr]
  have hpost_nh : Event.printHeader ∉ post := by
    intro hmem
    rcases hpost _ hmem with ⟨d, hd⟩ | ⟨i, hi⟩ | ⟨s, hs⟩ <;> simp_all
  have hpre_nh : Event.printHeader ∉ pre := by
    intro hmem
    obtain ⟨p, hp⟩ := hpre _ hmem
    simp_all
  refine ⟨?_, ⟨pre, post, htr, hpre, hpost_nh⟩, ?_, ?_⟩
  · rw [htr, List.count_append, List.count_eq_zero.mpr hpre_nh,
      List.count_cons_self, List.count_eq_zero.mpr hpost_nh]
  · intro _
    rw [htr]
    simp
  · intro hnorow
    rw [htr, outputLines_append]
    have h1 : outputLines pre = [] := by
      apply outputLines_eq_nil
      intro e he
      obtain ⟨p, rfl⟩ := hpre e he
      exact ⟨by simp, fun s => by simp⟩
    have h2 : outputLines post = [] := by
      apply outputLines_eq_nil
      intro e he
      refine ⟨?_, ?_⟩
      · intro hE
        exact hpost_nh (hE ▸ he)
      · intro s hE
        apply hnorow s
        rw [htr]
        subst hE
        exact List.mem_append.mpr (Or.inr (List.mem_cons_of_mem _ he))
    rw [h1,
      show outputLines (Event.printHeader :: post) =
        "lon,lat,az_idx,range_idx,burst_id,tiff_path" :: outputLines post
        from rfl,
      h2]
    rfl

/-- C10 witness: a concrete run with a height, an empty overlap and no
filter prints the header exactly once and nothing else. -/
theorem C10_header_once_witness :
    (cli_main envW argsHW).1.count Event.printHeader = 1 ∧
    outputLines (cli_main envW argsHW).1 =
      ["lon,lat,az_idx,range_idx,burst_id,tiff_path"] := by
  refine ⟨(C10_header_once envW argsHW (Or.inl (by simp [argsHW]))).1,
    (C10_header_once envW argsHW (Or.inl (by simp [argsHW]))).2.2.2 ?_⟩
  intro r hr
  have htr : (cli_main envW argsHW).1 =
      [Event.printHeader, Event.loadBursts 1, Event.loadBursts 2,
        Event.loadBursts 3] := rfl
  rw [htr] at hr
  simp at hr
